import Mathlib

/-!
# Verification of pluslife-notifier

A shallow embedding of the core of the `pluslife-notifier` service
(session registry, test-protocol state machine, chart data transform,
websocket fan-out and email notifier), translated from the Rust sources
in `src/`, together with theorems settling the specification claims.

Modelling conventions:
* Rust `u8`/`u16`/`u32`/`usize`/`u64` fields are `Nat`; `i64` values are
  `Int` (all arithmetic performed on them here stays far from the
  64-bit boundaries: graph values come from `u32` samples, so `i64`
  subtraction in `normalise_values_to_zero` cannot overflow).
* `f32`/`f64` time and temperature values are modelled over `ℚ`; the
  only arithmetic performed on them (`sampling_time / 600`, `min`,
  `max`) is exact order arithmetic carried through unchanged, and no
  claim depends on float rounding.  The `f32::MAX` / `f32::MIN` and
  `i64::MAX` / `i64::MIN` sentinels used by `TestData::to_graph` are
  given their exact values.
* `Uuid` is an opaque identifier, modelled as `Nat`; `EmailAddress` is
  modelled as `String`; `jiff::Timestamp` as `Int`.
* PNG rasterisation (`GraphData::plot_to_buffer`, via the `plotters`
  and `png` crates) is a foreign rendering routine; definitions that
  call it are parameterised by a `render : GraphData → Except Error
  (List Nat)` argument standing for it.  Base64 text encoding of the
  PNG buffer in the websocket payload is abstracted to the byte list
  itself (the encoding is injective and no claim inspects the text).
* Side effects are made explicit: `SessionSockets::notify` calls made
  by `State::update` are returned as a trace (`List State`), and the
  detached email tasks spawned by the `receive_data` handler are
  returned as a list of `Action`s.
-/

namespace Pluslife

/-! ## messages.rs -/

/-- The `Event` from src/messages.rs. -/
inductive Event where
  | testStarted
  | continueTest
  | testFinished
  | newData
  | deviceReady
  | alreadyTesting
deriving DecidableEq, Repr

/-- The `DetectionResult` from src/messages.rs. -/
inductive DetectionResult where
  | positive
  | negative
  | invalid
deriving DecidableEq, Repr

/-- The `strum_macros::Display` rendering of `DetectionResult`
(the variant name). -/
def DetectionResult.display : DetectionResult → String
  | .positive => "Positive"
  | .negative => "Negative"
  | .invalid => "Invalid"

/-- The `SubgroupResult` from src/messages.rs. -/
structure SubgroupResult where
  name : String
  result : DetectionResult
deriving DecidableEq, Repr

/-- The `TestSample` from src/messages.rs.  `u8`/`u16`/`u32`/`usize`
fields become `Nat`; the `DegreesC` temperature becomes `ℚ`. -/
structure TestSample where
  current_data_index : Nat
  first_channel_result : Nat
  number_of_channels : Nat
  sample_stream_number : Nat
  sample_type : Nat
  sampling_temperature : ℚ
  sampling_time : Nat
  starting_channel : Nat
  total_number_of_samples : Nat
deriving DecidableEq, Repr

/-- The `TemperatureSample` from src/messages.rs. -/
structure TemperatureSample where
  time : Int
  temp : ℚ
deriving DecidableEq, Repr

/-- The `TestData` from src/messages.rs. -/
structure TestData where
  samples : List TestSample
  temperature_samples : List TemperatureSample
deriving DecidableEq, Repr

/-- The `TestData::empty`. -/
def TestData.empty : TestData :=
  { samples := [], temperature_samples := [] }

/-- The `TestState` from src/messages.rs. -/
inductive DeviceTestState where
  | idle
  | testing
  | done
deriving DecidableEq, Repr

/-- The `TestResult` from src/messages.rs. -/
structure TestResult where
  detection_type : Int
  detection_flow_number : Int
  detection_result : DetectionResult
  number_of_channels : Nat
  starting_channel : Nat
  channel_results : List DetectionResult
  number_of_subgroups : Nat
  subgroup_results : List SubgroupResult
deriving DecidableEq, Repr

/-- The `Device` from src/messages.rs. -/
structure Device where
  hardware_version : String
  software_version : String
  device_model : String
  serial_number : Nat
  configuration : String
  current_temp : Option ℚ
  target_temp : Option ℚ
deriving DecidableEq, Repr

/-- The `Test` from src/messages.rs. -/
structure Test where
  data : TestData
  state : DeviceTestState
  result : Option TestResult
deriving DecidableEq, Repr

/-- The `Message` from src/messages.rs. -/
structure Message where
  version : Nat
  event : Event
  device : Device
  test : Test
deriving DecidableEq, Repr

/-! ## graph.rs -/

/-- The `Line` from src/graph.rs; the `RGBColor` is a triple of channel
intensities. -/
structure Line where
  color : Nat × Nat × Nat
  points : List (ℚ × Int)
deriving DecidableEq, Repr

/-- The `Line::new`. -/
def Line.new (color : Nat × Nat × Nat) : Line :=
  { color, points := [] }

/-- The `GraphData` from src/graph.rs. -/
structure GraphData where
  min_time : ℚ
  max_time : ℚ
  min_value : Int
  max_value : Int
  lines : List Line
deriving DecidableEq, Repr

/-- The exact value of `f32::MAX`. -/
def f32MAX : ℚ := (2 ^ 24 - 1) * 2 ^ 104

/-- The exact value of `f32::MIN`. -/
def f32MIN : ℚ := -f32MAX

/-- The exact value of `i64::MAX`. -/
def i64MAX : Int := 2 ^ 63 - 1

/-- The exact value of `i64::MIN`. -/
def i64MIN : Int := -(2 ^ 63)

/-- The minimum of a line's point values, `0` for an empty line:
`line.points.iter().map(|(_, value)| *value).min().unwrap_or_default()`. -/
def lineMinValue (line : Line) : Int :=
  ((line.points.map Prod.snd).min?).getD 0

/-- The maximum of a line's point values, `0` for an empty line. -/
def lineMaxValue (line : Line) : Int :=
  ((line.points.map Prod.snd).max?).getD 0

/-- The `GraphData::normalise_values_to_zero` from src/graph.rs.  The Rust
code first collects `line_minima` (one minimum per line, by index) and
then maps each line with `line_minima[index]`; since the minimum used
for line `i` is exactly line `i`'s own minimum, this is written
directly as a per-line map. -/
def GraphData.normalise_values_to_zero (g : GraphData) : GraphData :=
  let normalised_lines : List Line :=
    g.lines.map fun line =>
      { color := line.color
        points := line.points.map fun p => (p.1, p.2 - lineMinValue line) }
  { min_time := g.min_time
    max_time := g.max_time
    min_value := 0
    max_value := ((normalised_lines.map lineMaxValue).max?).getD 0
    lines := normalised_lines }

/-- The fixed palette of 7 line slots initialised at the top of
`TestData::to_graph`. -/
def initialLines : List Line :=
  [ Line.new (166, 206, 227)
  , Line.new (32, 120, 180)
  , Line.new (178, 223, 138)
  , Line.new (52, 160, 45)
  , Line.new (166, 206, 227)
  , Line.new (252, 154, 154)
  , Line.new (254, 192, 112) ]

/-- Appending a point to a line (`lines[ch].points.push(p)`). -/
def Line.pushPoint (line : Line) (p : ℚ × Int) : Line :=
  { line with points := line.points ++ [p] }

/-- The sample loop of `TestData::to_graph`: accumulators are the
running `min_time`, `max_time`, `min_value`, `max_value` and the
line slots.  Each step updates the time/value ranges, then rejects an
out-of-range `starting_channel`, then pushes the sample's point onto
its channel's line. -/
def toGraphGo : List TestSample → ℚ → ℚ → Int → Int → List Line →
    Except Nat GraphData
  | [], minT, maxT, minV, maxV, lines =>
      .ok { min_time := minT, max_time := maxT, min_value := minV
            max_value := maxV, lines := lines }
  | s :: rest, minT, maxT, minV, maxV, lines =>
      let time_minutes : ℚ := (s.sampling_time : ℚ) / 600
      let minT' := min minT time_minutes
      let maxT' := max maxT time_minutes
      let minV' := min minV (s.first_channel_result : Int)
      let maxV' := max maxV (s.first_channel_result : Int)
      if s.starting_channel ≥ lines.length then
        .error s.starting_channel
      else
        toGraphGo rest minT' maxT' minV' maxV'
          (lines.set s.starting_channel
            ((lines.getD s.starting_channel (Line.new (0, 0, 0))).pushPoint
              (time_minutes, (s.first_channel_result : Int))))

/-- The `TestData::to_graph` from src/graph.rs.  The error payload is the
offending channel index of `Error::TooManyChannels` (the full `Error`
type is layered on below, once `State` exists). -/
def TestData.to_graph (data : TestData) : Except Nat GraphData :=
  toGraphGo data.samples f32MAX f32MIN i64MAX i64MIN initialLines

/-! ## state.rs and the `Error` type from lib.rs -/

/-- The `IncompleteTest` from src/state.rs. -/
structure IncompleteTest where
  data : TestData
deriving DecidableEq, Repr

/-- The `CompletedTest` from src/state.rs; `graph_png` is the cached PNG
byte buffer. -/
structure CompletedTest where
  overall : DetectionResult
  subgroup_results : List SubgroupResult
  graph_png : List Nat
deriving DecidableEq, Repr

/-- The `State` from src/state.rs. -/
inductive State where
  | incompleteTest (t : IncompleteTest)
  | completedTest (c : CompletedTest)
deriving DecidableEq, Repr

/-- The `Error` enum from src/lib.rs.  The variants wrapping foreign
error values (`Io`, `Serde`, `Plotting`, `Reqwest`) carry no payload
here; `InvalidEnvVar` keeps the variable name. -/
inductive Error where
  | testFinishedMissingResult
  | missingTestFinished (state : State)
  | unexpectedMessage (state : State) (message : Message)
  | tooManyChannels (channel : Nat)
  | invalidEnvVar (name : String)
  | io
  | serde
  | plotting
  | reqwest
deriving DecidableEq, Repr

/-- The `Error::get_state` from src/lib.rs. -/
def Error.get_state : Error → Option State
  | .testFinishedMissingResult => none
  | .missingTestFinished state => some state
  | .unexpectedMessage state _ => some state
  | .tooManyChannels _ => none
  | .invalidEnvVar _ => none
  | .io => none
  | .serde => none
  | .plotting => none
  | .reqwest => none

/-- The `TestData::to_graph` with its error injected into `Error`
(`Err(Error::TooManyChannels(ch))` in the Rust source). -/
def TestData.toGraphE (data : TestData) : Except Error GraphData :=
  match data.to_graph with
  | .ok g => .ok g
  | .error ch => .error (.tooManyChannels ch)

/-- A stand-in for `GraphData::plot_to_buffer` (PNG rasterisation via
foreign crates); definitions below are parameterised by it. -/
def Render : Type := GraphData → Except Error (List Nat)

/-- The `IncompleteTest::new`. -/
def IncompleteTest.new (data : TestData) : IncompleteTest :=
  { data }

/-- The `IncompleteTest::complete` from src/state.rs: derive the chart
image from the final data and build the `CompletedTest`. -/
def IncompleteTest.complete (render : Render) (_t : IncompleteTest)
    (result : TestResult) (data : TestData) : Except Error CompletedTest := do
  let g ← data.toGraphE
  let png ← render g.normalise_values_to_zero
  .ok { overall := result.detection_result
        subgroup_results := result.subgroup_results
        graph_png := png }

/-- The `State::started` from src/state.rs. -/
def State.started : State :=
  .incompleteTest (IncompleteTest.new TestData.empty)

/-- The `State::incomplete` from src/state.rs. -/
def State.incomplete (data : TestData) : State :=
  .incompleteTest (IncompleteTest.new data)

/-- The `State::update` from src/state.rs.  The second component of the
result is the trace of `websockets.notify(..)` calls the Rust code
makes (`update` notifies on a successful `TestFinished` completion and
on `NewData`, and nowhere else). -/
def State.update (render : Render) (state : State) (message : Message) :
    Except Error State × List State :=
  match state with
  | .incompleteTest incomplete_test =>
    match message.event with
    | .testFinished =>
      match message.test.result with
      | some result =>
        match incomplete_test.complete render result message.test.data with
        | .ok completed_test =>
          let new_state := State.completedTest completed_test
          (.ok new_state, [new_state])
        | .error e => (.error e, [])
      | none => (.error .testFinishedMissingResult, [])
    | .newData =>
      let new_state := State.incomplete message.test.data
      (.ok new_state, [new_state])
    | .deviceReady => (.ok (State.incomplete message.test.data), [])
    | .testStarted => (.ok (State.incomplete message.test.data), [])
    | .alreadyTesting =>
      (.error (.unexpectedMessage (.incompleteTest incomplete_test) message), [])
    | .continueTest =>
      (.error (.unexpectedMessage (.incompleteTest incomplete_test) message), [])
  | .completedTest completed_test =>
    (.error (.unexpectedMessage (.completedTest completed_test) message), [])

/-- Sequential application of `State::update` to a list of messages,
stopping at the first error (the websocket traces are discarded). -/
def State.updates (render : Render) (state : State) :
    List Message → Except Error State
  | [] => .ok state
  | m :: ms =>
    match (state.update render m).1 with
    | .ok s => s.updates render ms
    | .error e => .error e

/-- The `State::current_graph_png` from src/state.rs. -/
def State.current_graph_png (render : Render) :
    State → Except Error (Option (List Nat))
  | .incompleteTest test =>
    if test.data.samples = [] then
      .ok none
    else do
      let g ← test.data.toGraphE
      let png ← render g.normalise_values_to_zero
      .ok (some png)
  | .completedTest test => .ok (some test.graph_png)

/-! ## websockets.rs -/

/-- The `results` part of a websocket payload
(`Results` in src/websockets.rs). -/
structure WsResults where
  overall : DetectionResult
  subgroup_results : List SubgroupResult
deriving DecidableEq, Repr

/-- The `WebsocketMessage` from src/websockets.rs.  `graph_png_base64`
holds the PNG bytes whose base64 text is sent on the wire. -/
structure WebsocketMessage where
  graph_png_base64 : Option (List Nat)
  results : Option WsResults
deriving DecidableEq, Repr

/-- The `TryFrom<&State> for WebsocketMessage` from src/websockets.rs. -/
def websocketMessageOfState (render : Render) :
    State → Except Error WebsocketMessage
  | .incompleteTest incomplete_test =>
    if incomplete_test.data.samples = [] then
      .ok { graph_png_base64 := none, results := none }
    else do
      let g ← incomplete_test.data.toGraphE
      let png ← render g.normalise_values_to_zero
      .ok { graph_png_base64 := some png, results := none }
  | .completedTest completed_test =>
    .ok { graph_png_base64 := some completed_test.graph_png
          results := some { overall := completed_test.overall
                            subgroup_results := completed_test.subgroup_results } }

/-- The `SessionSockets::notify` from src/websockets.rs: the registered
sockets are identifiers; the result is the list of (socket, payload)
sends performed.  If the payload cannot be built the failure is only
logged and nothing is sent; with no sockets registered nothing is even
serialised.  (JSON serialisation of the built payload cannot fail and
is abstracted away.) -/
def sessionSocketsNotify (render : Render) (sockets : List Nat)
    (state : State) : List (Nat × WebsocketMessage) :=
  if sockets = [] then []
  else
    match websocketMessageOfState render state with
    | .ok message => sockets.map fun w => (w, message)
    | .error _ => []

/-! ## notifier.rs and mailgun.rs (content only) -/

/-- The `AttachmentType` from src/mailgun.rs as used by the notifier. -/
inductive AttachmentType where
  | inline
  | plain
deriving DecidableEq, Repr

/-- The `Attachment` from src/mailgun.rs (mime type kept as its string). -/
structure Attachment where
  attachment_type : AttachmentType
  name : String
  bytes : List Nat
  mime_type : String
deriving DecidableEq, Repr

/-- The content of one outbound email handed to `send_mailgun`. -/
structure Email where
  sender_name : String
  recipients : List String
  subject : String
  text : String
  html : Option String
  attachments : List Attachment
deriving DecidableEq, Repr

/-- The `normalise_result_name` from src/notifier.rs. -/
def normalise_result_name (name : String) : String :=
  if name = "IC" then "Control" else name

/-- The `to_html_list` from src/notifier.rs (the push loop written as a
fold over the subgroup results). -/
def to_html_list (results : List SubgroupResult) : String :=
  (results.foldl
    (fun str result =>
      str ++ "  <li><strong>" ++ normalise_result_name result.name
        ++ "</strong>: " ++ result.result.display ++ "</li>\n")
    "<ul>\n") ++ "</ul>"

/-- The `to_markdown_list` from src/notifier.rs (the push loop written as
a fold over the subgroup results). -/
def to_markdown_list (results : List SubgroupResult) : String :=
  results.foldl
    (fun str result => str ++ " * " ++ normalise_result_name result.name ++ "\n")
    ""

/-- The `SENDER_NAME` constant from src/notifier.rs. -/
def SENDER_NAME : String := "PlusLife Results"

/-- The email content built by `notify` in src/notifier.rs (the
`format!` bodies, the subject and the single inline attachment; the
actual HTTP send is a foreign effect). -/
def notifyEmail (completed_test : CompletedTest) (recipient : String) : Email :=
  { sender_name := SENDER_NAME
    recipients := [recipient]
    subject := "Your PlusLife Results"
    text := "Your PlusLife results are in.\n\nYour overall result is: "
      ++ completed_test.overall.display
      ++ "\nYour subgroup results are:\n"
      ++ to_markdown_list completed_test.subgroup_results
      ++ "\n"
    html := some ("<h2>Your PlusLife results are in.</h2>\n\n<p>Your overall result is: "
      ++ completed_test.overall.display
      ++ "</p>\n<p>Your subgroup results are:</p>\n"
      ++ to_html_list completed_test.subgroup_results
      ++ "\n")
    attachments := [{ attachment_type := .inline
                      name := "graph.png"
                      bytes := completed_test.graph_png
                      mime_type := "image/png" }] }

/-! ## sessions.rs -/

/-- The `Session` from src/sessions.rs. -/
structure Session where
  state : State
  created : Int
  email_to_notify : String
  id : Nat
deriving Repr

/-- The `Sessions` registry from src/sessions.rs: the `HashMap<Uuid,
Session>` behind the mutex, modelled as a partial map. -/
def Sessions : Type := Nat → Option Session

/-- The `Sessions::get`. -/
def Sessions.get (m : Sessions) (id : Nat) : Option Session := m id

/-- The `Sessions::insert` (`HashMap::insert`, overwriting). -/
def Sessions.insert (m : Sessions) (id : Nat) (session : Session) : Sessions :=
  fun j => if j = id then some session else m j

/-- The `Sessions::remove` (`HashMap::remove`): the removed entry, if any,
and the remaining map. -/
def Sessions.remove (m : Sessions) (id : Nat) : Option Session × Sessions :=
  (m id, fun j => if j = id then none else m j)

/-- The `Sessions::create` from src/sessions.rs, with the freshly drawn
`Uuid::new_v4()` and `Timestamp::now()` passed in explicitly. -/
def Sessions.create (m : Sessions) (id : Nat) (timestamp : Int)
    (email_to_notify : String) : Sessions :=
  m.insert id { state := State.started, created := timestamp
                email_to_notify := email_to_notify, id := id }

/-- The deferred expiry task spawned by `ServerState::create_session`:
after `cleanup_period` it removes the entry if still present (logging
when something was actually removed, a no-op otherwise). -/
def expireSession (m : Sessions) (id : Nat) : Sessions :=
  (m.remove id).2

/-! ## The `receive_data` handler from src/bin/web.rs -/

/-- The HTTP status codes `receive_data` answers with. -/
inductive Status where
  | ok
  | badRequest
  | notFound
deriving DecidableEq, Repr

/-- A detached task spawned by `receive_data`: the completion email
(`notify`, with its error fallback) or the unrecoverable-error email
(`notify_error`). -/
inductive Action where
  | emailCompletion (recipient : String) (completed_test : CompletedTest)
  | emailError (recipient : String)
deriving DecidableEq, Repr

/-- The `receive_data` from src/bin/web.rs: remove the session, run the
state machine, then reinsert / finalize / restore, answering with a
status and body and spawning notification tasks.  The Rust handler
destructures `let Session { state, created, email_to_notify, id } =
session;`, shadowing the path `id` with `session.id`, so both
reinsertion calls store under `session.id` (which equals the path id
for sessions the registry itself created). -/
def receive_data (render : Render) (sessions : Sessions) (id : Nat)
    (message : Message) : Sessions × (Status × String) × List Action :=
  match sessions.remove id with
  | (some session, remaining) =>
    match (session.state.update render message).1 with
    | .ok (.completedTest completed_test) =>
      (remaining, (.ok, "Received"),
        [.emailCompletion session.email_to_notify completed_test])
    | .ok state =>
      (remaining.insert session.id
          { state := state, created := session.created
            email_to_notify := session.email_to_notify
            id := session.id },
        (.ok, "Received"), [])
    | .error err =>
      match err.get_state with
      | some state =>
        (remaining.insert session.id
            { state := state, created := session.created
              email_to_notify := session.email_to_notify
              id := session.id },
          (.badRequest, "Failed to process data"), [])
      | none =>
        (remaining, (.badRequest, "Failed to process data"),
          [.emailError session.email_to_notify])
  | (none, _) => (sessions, (.notFound, "Unknown ID"), [])

/-! ## Concrete fixtures for witnesses and counterexamples -/

/-- A trivial renderer: rasterisation always succeeds with an empty
buffer (claims never depend on the pixel content). -/
def render0 : Render := fun _ => .ok []

/-- A concrete device header. -/
def device0 : Device :=
  { hardware_version := "1.0", software_version := "2.0"
    device_model := "pluslife", serial_number := 7
    configuration := "default", current_temp := none, target_temp := none }

/-- A concrete non-empty `TestData`. -/
def dataB : TestData :=
  { samples := [], temperature_samples := [{ time := 0, temp := 25 }] }

/-- A concrete message with the given event and data, no result. -/
def msgWith (event : Event) (data : TestData) : Message :=
  { version := 1, event := event, device := device0
    test := { data := data, state := .testing, result := none } }

/-! ## Auxiliary lemmas -/

/-- From `IncompleteTest`, the three data-bearing events replace the
held data and keep the state incomplete. -/
theorem update_replaces_data (render : Render) (t : IncompleteTest)
    (m : Message)
    (h : m.event = .newData ∨ m.event = .deviceReady ∨ m.event = .testStarted) :
    (State.update render (.incompleteTest t) m).1
      = .ok (.incompleteTest (IncompleteTest.new m.test.data)) := by
  rcases h with h | h | h <;>
    simp [State.update, State.incomplete, h]

/-- A member bounds the defaulted minimum from above. -/
theorem minD_le_of_mem {l : List Int} {x : Int} (hx : x ∈ l) :
    l.min?.getD 0 ≤ x := by
  cases h : l.min? with
  | none =>
    rw [List.min?_eq_none_iff] at h
    subst h
    cases hx
  | some m =>
    simpa using (List.le_min?_iff (fun _ _ _ => le_min_iff) h).1 le_rfl x hx

/-- A member bounds the defaulted maximum from below. -/
theorem le_maxD_of_mem {l : List Int} {x : Int} (hx : x ∈ l) :
    x ≤ l.max?.getD 0 := by
  cases h : l.max? with
  | none =>
    rw [List.max?_eq_none_iff] at h
    subst h
    cases hx
  | some m =>
    simpa using (List.max?_le_iff (fun _ _ _ => max_le_iff) h).1 le_rfl x hx

/-- The defaulted minimum of a non-empty list is one of its members. -/
theorem minD_mem_of_ne_nil {l : List Int} (h : l ≠ []) :
    l.min?.getD 0 ∈ l := by
  cases hm : l.min? with
  | none => exact absurd (List.min?_eq_none_iff.1 hm) h
  | some m => simpa using List.min?_mem (fun a b => min_choice a b) hm

/-- The defaulted maximum of a non-empty list is one of its members. -/
theorem maxD_mem_of_ne_nil {l : List Int} (h : l ≠ []) :
    l.max?.getD 0 ∈ l := by
  cases hm : l.max? with
  | none => exact absurd (List.max?_eq_none_iff.1 hm) h
  | some m => simpa using List.max?_mem (fun a b => max_choice a b) hm

/-- Taking `min?` commutes with subtracting a constant. -/
theorem min?_map_sub (l : List Int) (c : Int) :
    (l.map (fun v => v - c)).min? = l.min?.map (fun v => v - c) := by
  induction l with
  | nil => simp
  | cons x xs ih =>
    cases h : xs.min? with
    | none => simp [List.min?_cons, ih, h]
    | some m => simp [List.min?_cons, ih, h, min_sub_sub_right]

/-- The single normalisation step applied to one line by
`normalise_values_to_zero`. -/
def normaliseLine (line : Line) : Line :=
  { color := line.color
    points := line.points.map fun p => (p.1, p.2 - lineMinValue line) }

/-- The `normalise_values_to_zero` written through `normaliseLine`. -/
theorem normalise_values_to_zero_eq (g : GraphData) :
    g.normalise_values_to_zero
      = { min_time := g.min_time, max_time := g.max_time, min_value := 0
          max_value := (((g.lines.map normaliseLine).map lineMaxValue).max?).getD 0
          lines := g.lines.map normaliseLine } :=
  rfl

/-- After one normalisation step, a line's minimum value is `0`. -/
theorem lineMinValue_normaliseLine (line : Line) :
    lineMinValue (normaliseLine line) = 0 := by
  have hmap : (normaliseLine line).points.map Prod.snd
      = (line.points.map Prod.snd).map (fun v => v - lineMinValue line) := by
    simp [normaliseLine, List.map_map, Function.comp]
  simp only [lineMinValue, hmap, min?_map_sub]
  cases hm : (line.points.map Prod.snd).min? with
  | none => simp
  | some m =>
    have hm' : lineMinValue line = m := by
      simp [lineMinValue, hm]
    simp [hm']

/-- Normalising a line twice is the same as normalising it once. -/
theorem normaliseLine_idem (line : Line) :
    normaliseLine (normaliseLine line) = normaliseLine line := by
  have h0 : lineMinValue (normaliseLine line) = 0 := lineMinValue_normaliseLine line
  show Line.mk (normaliseLine line).color
      ((normaliseLine line).points.map fun p =>
        (p.1, p.2 - lineMinValue (normaliseLine line)))
    = normaliseLine line
  rw [h0]
  simp

/-! ## Claims -/

/-- Claim C1. Starting from any `IncompleteTest` state, any non-empty
sequence of `NewData` / `DeviceReady` / `TestStarted` messages folded
through `State::update` succeeds, stays `IncompleteTest`, and holds
exactly the data of the last message (each event replaces the held
data; nothing is merged). -/
theorem claim1_events_replace_data (render : Render) (d : TestData)
    (msgs : List Message) (m : Message)
    (hev : ∀ x ∈ msgs, x.event = .newData ∨ x.event = .deviceReady ∨
      x.event = .testStarted)
    (hlast : msgs.getLast? = some m) :
    State.updates render (.incompleteTest (IncompleteTest.new d)) msgs
      = .ok (.incompleteTest (IncompleteTest.new m.test.data)) := by
  induction msgs generalizing d with
  | nil => simp at hlast
  | cons x ms ih =>
    have hx := hev x (by simp)
    have hstep := update_replaces_data render (IncompleteTest.new d) x hx
    cases ms with
    | nil =>
      simp at hlast
      subst hlast
      simp [State.updates, hstep]
    | cons y ms' =>
      have : State.updates render
          (.incompleteTest (IncompleteTest.new d)) (x :: y :: ms')
          = State.updates render
            (.incompleteTest (IncompleteTest.new x.test.data)) (y :: ms') := by
        simp [State.updates, hstep]
      rw [this]
      exact ih x.test.data (fun z hz => hev z (by simp [hz]))
        (by simpa using hlast)

/-- Witness for C1 at a concrete two-message sequence. -/
theorem claim1_witness :
    State.updates render0
        (.incompleteTest (IncompleteTest.new TestData.empty))
        [msgWith .newData TestData.empty, msgWith .testStarted dataB]
      = .ok (.incompleteTest (IncompleteTest.new dataB)) := by
  have := claim1_events_replace_data render0 TestData.empty
    [msgWith .newData TestData.empty, msgWith .testStarted dataB]
    (msgWith .testStarted dataB)
    (by intro x hx; simp [msgWith] at hx; rcases hx with h | h <;>
      subst h <;> simp [msgWith])
    (by simp)
  simpa [msgWith] using this

/-- Claim C2. From `IncompleteTest`, a `TestFinished` message without a
result fails with `TestFinishedMissingResult`; that error carries no
state to restore, so `receive_data` leaves the session removed from
the registry, answers with a client error, and spawns an error
notification to the session's recipient. -/
theorem claim2_missing_result_unrecoverable (render : Render)
    (sessions : Sessions) (id : Nat) (message : Message)
    (session : Session) (t : IncompleteTest)
    (hget : sessions.get id = some session)
    (hstate : session.state = .incompleteTest t)
    (hev : message.event = .testFinished)
    (hres : message.test.result = none) :
    (session.state.update render message).1 = .error .testFinishedMissingResult
    ∧ Error.get_state .testFinishedMissingResult = none
    ∧ (receive_data render sessions id message).1.get id = none
    ∧ (receive_data render sessions id message).2.1
        = (.badRequest, "Failed to process data")
    ∧ (receive_data render sessions id message).2.2
        = [.emailError session.email_to_notify] := by
  simp only [Sessions.get] at hget
  have hrem : sessions.remove id
      = (some session, fun j => if j = id then none else sessions j) := by
    simp [Sessions.remove, hget]
  have hupd : (session.state.update render message).1
      = .error .testFinishedMissingResult := by
    rw [hstate]
    simp [State.update, hev, hres]
  refine ⟨hupd, rfl, ?_, ?_, ?_⟩ <;>
    simp [receive_data, hrem, hupd, Error.get_state, Sessions.get]

/-- Witness for C2: a freshly created session receiving a resultless
`TEST_FINISHED`. -/
theorem claim2_witness :
    ((Session.mk State.started 100 "user@example.com" 5).state.update render0
        (msgWith .testFinished TestData.empty)).1
      = .error .testFinishedMissingResult
    ∧ Error.get_state .testFinishedMissingResult = none
    ∧ (receive_data render0
        (Sessions.insert (fun _ => none) 5
          (Session.mk State.started 100 "user@example.com" 5))
        5 (msgWith .testFinished TestData.empty)).1.get 5 = none
    ∧ (receive_data render0
        (Sessions.insert (fun _ => none) 5
          (Session.mk State.started 100 "user@example.com" 5))
        5 (msgWith .testFinished TestData.empty)).2.1
        = (.badRequest, "Failed to process data")
    ∧ (receive_data render0
        (Sessions.insert (fun _ => none) 5
          (Session.mk State.started 100 "user@example.com" 5))
        5 (msgWith .testFinished TestData.empty)).2.2
        = [.emailError "user@example.com"] :=
  claim2_missing_result_unrecoverable render0 _ 5 _
    (Session.mk State.started 100 "user@example.com" 5)
    (IncompleteTest.new TestData.empty)
    (by simp [Sessions.get, Sessions.insert])
    rfl rfl rfl

/-- Claim C3. From `CompletedTest`, every message fails with
`UnexpectedMessage` carrying exactly the same completed state (and no
websocket notification); the error's restorable state is that
completed state, and `receive_data` reinserts it (under `session.id`,
which for a registry-created session equals the key it is stored
under), so the session's registry entry keeps the identical
`CompletedTest` and every other entry is untouched. -/
theorem claim3_completed_state_preserved (render : Render)
    (sessions : Sessions) (id : Nat) (message : Message)
    (session : Session) (c : CompletedTest)
    (hget : sessions.get id = some session)
    (hid : session.id = id)
    (hstate : session.state = .completedTest c) :
    session.state.update render message
      = (.error (.unexpectedMessage (.completedTest c) message), [])
    ∧ Error.get_state (.unexpectedMessage (.completedTest c) message)
        = some (.completedTest c)
    ∧ (receive_data render sessions id message).1.get id
        = some { state := .completedTest c, created := session.created
                 email_to_notify := session.email_to_notify
                 id := session.id }
    ∧ (∀ j, j ≠ id →
        (receive_data render sessions id message).1.get j = sessions.get j)
    ∧ (receive_data render sessions id message).2
        = ((.badRequest, "Failed to process data"), []) := by
  subst hid
  simp only [Sessions.get] at hget
  have hrem : sessions.remove session.id
      = (some session, fun j => if j = session.id then none else sessions j) := by
    simp [Sessions.remove, hget]
  have hupd : session.state.update render message
      = (.error (.unexpectedMessage (.completedTest c) message), []) := by
    rw [hstate]
    simp [State.update]
  refine ⟨hupd, rfl, ?_, ?_, ?_⟩
  · simp [receive_data, hrem, hupd, Error.get_state, Sessions.get,
      Sessions.insert]
  · intro j hj
    simp [receive_data, hrem, hupd, Error.get_state, Sessions.get,
      Sessions.insert, hj]
  · simp [receive_data, hrem, hupd, Error.get_state]

/-- Witness for C3: a completed session receiving a late `NEW_DATA`. -/
theorem claim3_witness :
    ((Session.mk
        (.completedTest (CompletedTest.mk .positive [SubgroupResult.mk "IC" .negative] [1, 2]))
        100 "user@example.com" 5).state.update render0 (msgWith .newData dataB))
      = (.error (.unexpectedMessage
          (.completedTest (CompletedTest.mk .positive [SubgroupResult.mk "IC" .negative] [1, 2]))
          (msgWith .newData dataB)), [])
    ∧ (receive_data render0
        (Sessions.insert (fun _ => none) 5
          (Session.mk
            (.completedTest (CompletedTest.mk .positive [SubgroupResult.mk "IC" .negative] [1, 2]))
            100 "user@example.com" 5))
        5 (msgWith .newData dataB)).1.get 5
      = some { state := .completedTest
                 (CompletedTest.mk .positive [SubgroupResult.mk "IC" .negative] [1, 2])
               created := 100, email_to_notify := "user@example.com", id := 5 } := by
  have h := claim3_completed_state_preserved render0
    (Sessions.insert (fun _ => none) 5
      (Session.mk
        (.completedTest (CompletedTest.mk .positive [SubgroupResult.mk "IC" .negative] [1, 2]))
        100 "user@example.com" 5))
    5 (msgWith .newData dataB)
    (Session.mk
      (.completedTest (CompletedTest.mk .positive [SubgroupResult.mk "IC" .negative] [1, 2]))
      100 "user@example.com" 5)
    (CompletedTest.mk .positive [SubgroupResult.mk "IC" .negative] [1, 2])
    (by simp [Sessions.get, Sessions.insert]) rfl rfl
  exact ⟨h.1, h.2.2.1⟩

/-- Claim C4. `normalise_values_to_zero` keeps the time range, zeroes
`min_value`, subtracts each line's own minimum (a member of the line's
values bounding all of them from below) from every point of that line
independently, and sets `max_value` to the largest normalised point
value across all lines (`0` when there are no points); in particular a
line with points `[(t0,5),(t1,9),(t2,5)]` normalises to
`[(t0,0),(t1,4),(t2,0)]` with `min_value = 0` and `max_value = 4`. -/
theorem claim4_normalisation (g : GraphData) :
    g.normalise_values_to_zero.min_value = 0
    ∧ g.normalise_values_to_zero.min_time = g.min_time
    ∧ g.normalise_values_to_zero.max_time = g.max_time
    ∧ (∀ (i : Nat) (line : Line), g.lines[i]? = some line →
        ∃ line' : Line, g.normalise_values_to_zero.lines[i]? = some line'
          ∧ line'.color = line.color
          ∧ ((line.points = [] ∧ line'.points = [])
             ∨ ∃ m, m ∈ line.points.map Prod.snd
                 ∧ (∀ v ∈ line.points.map Prod.snd, m ≤ v)
                 ∧ line'.points = line.points.map fun p => (p.1, p.2 - m)))
    ∧ (∀ line' ∈ g.normalise_values_to_zero.lines, ∀ p ∈ line'.points,
        p.2 ≤ g.normalise_values_to_zero.max_value)
    ∧ (g.normalise_values_to_zero.max_value = 0
       ∨ ∃ line' ∈ g.normalise_values_to_zero.lines, ∃ p ∈ line'.points,
           p.2 = g.normalise_values_to_zero.max_value)
    ∧ (GraphData.mk 0 2 5 9
          [Line.mk (0, 0, 0) [(0, 5), (1, 9), (2, 5)]]).normalise_values_to_zero
        = GraphData.mk 0 2 0 4 [Line.mk (0, 0, 0) [(0, 0), (1, 4), (2, 0)]] := by
  rw [normalise_values_to_zero_eq]
  refine ⟨rfl, rfl, rfl, ?_, ?_, ?_, by decide⟩
  · intro i line hline
    refine ⟨normaliseLine line, ?_, rfl, ?_⟩
    · simp [List.getElem?_map, hline]
    · by_cases hp : line.points = []
      · exact Or.inl ⟨hp, by simp [normaliseLine, hp]⟩
      · refine Or.inr ⟨lineMinValue line, ?_, ?_, rfl⟩
        · exact minD_mem_of_ne_nil (by simpa using hp)
        · intro v hv
          exact minD_le_of_mem hv
  · intro line' hline' p hp
    have h1 : p.2 ≤ lineMaxValue line' :=
      le_maxD_of_mem (List.mem_map_of_mem Prod.snd hp)
    have h2 : lineMaxValue line'
        ≤ (((g.lines.map normaliseLine).map lineMaxValue).max?).getD 0 :=
      le_maxD_of_mem (List.mem_map_of_mem lineMaxValue hline')
    exact le_trans h1 h2
  · by_cases hL : g.lines.map normaliseLine = []
    · left
      simp [hL]
    · have hmapL : (g.lines.map normaliseLine).map lineMaxValue ≠ [] := by
        simpa using hL
      have hM := maxD_mem_of_ne_nil hmapL
      rcases List.mem_map.1 hM with ⟨line', hline', hM'⟩
      by_cases hp : line'.points = []
      · left
        have : lineMaxValue line' = 0 := by simp [lineMaxValue, hp]
        simp only [GraphData.max_value]
        rw [← hM', this]
      · right
        refine ⟨line', hline', ?_⟩
        have hvals : line'.points.map Prod.snd ≠ [] := by simpa using hp
        have hmem : lineMaxValue line' ∈ line'.points.map Prod.snd :=
          maxD_mem_of_ne_nil hvals
        rcases List.mem_map.1 hmem with ⟨p, hpmem, hpv⟩
        exact ⟨p, hpmem, by rw [hpv]; exact hM'⟩

/-- Witness for C4's per-line clause at the concrete example graph. -/
theorem claim4_witness :
    ∃ line',
      (GraphData.mk 0 2 5 9
          [Line.mk (0, 0, 0) [(0, 5), (1, 9), (2, 5)]]).normalise_values_to_zero.lines[0]?
        = some line'
      ∧ line'.color = (0, 0, 0)
      ∧ ((([((0 : ℚ), (5 : Int)), (1, 9), (2, 5)] : List (ℚ × Int)) = [] ∧ line'.points = [])
         ∨ ∃ m, m ∈ ([((0 : ℚ), (5 : Int)), (1, 9), (2, 5)] : List (ℚ × Int)).map Prod.snd
             ∧ (∀ v ∈ ([((0 : ℚ), (5 : Int)), (1, 9), (2, 5)] : List (ℚ × Int)).map Prod.snd,
                 m ≤ v)
             ∧ line'.points
                 = ([((0 : ℚ), (5 : Int)), (1, 9), (2, 5)] : List (ℚ × Int)).map
                     fun p => (p.1, p.2 - m)) :=
  (claim4_normalisation
      (GraphData.mk 0 2 5 9 [Line.mk (0, 0, 0) [(0, 5), (1, 9), (2, 5)]])).2.2.2.1
    0 (Line.mk (0, 0, 0) [(0, 5), (1, 9), (2, 5)]) (by decide)

/-- Claim C10. `normalise_values_to_zero` is idempotent. -/
theorem claim10_normalise_idempotent (g : GraphData) :
    g.normalise_values_to_zero.normalise_values_to_zero
      = g.normalise_values_to_zero := by
  rw [normalise_values_to_zero_eq, normalise_values_to_zero_eq g]
  have hmap : (g.lines.map normaliseLine).map normaliseLine
      = g.lines.map normaliseLine := by
    rw [List.map_map]
    exact List.map_congr_left fun line _ => normaliseLine_idem line
  simp [hmap]

/-- A concrete sample writing value `5` at minute `1` on the given
channel. -/
def sampleCh (ch : Nat) : TestSample :=
  { current_data_index := 0, first_channel_result := 5
    number_of_channels := 1, sample_stream_number := 166
    sample_type := 1, sampling_temperature := 25
    sampling_time := 600, starting_channel := ch
    total_number_of_samples := 1 }

/-- An error returned by the `to_graph` loop names an out-of-range
channel carried by one of the samples. -/
theorem toGraphGo_error_spec (samples : List TestSample) :
    ∀ (minT maxT : ℚ) (minV maxV : Int) (lines : List Line) (ch : Nat),
      toGraphGo samples minT maxT minV maxV lines = .error ch →
      lines.length ≤ ch ∧ ∃ s ∈ samples, s.starting_channel = ch := by
  induction samples with
  | nil =>
    intro minT maxT minV maxV lines ch h
    simp [toGraphGo] at h
  | cons s rest ih =>
    intro minT maxT minV maxV lines ch h
    rw [toGraphGo] at h
    by_cases hch : s.starting_channel ≥ lines.length
    · simp only [if_pos hch] at h
      cases h
      exact ⟨hch, s, by simp, rfl⟩
    · simp only [if_neg hch] at h
      have := ih _ _ _ _ _ _ h
      rw [List.length_set] at this
      exact ⟨this.1, by
        rcases this.2 with ⟨t, ht, htc⟩
        exact ⟨t, by simp [ht], htc⟩⟩

/-- If some sample's channel is out of range, the `to_graph` loop
fails. -/
theorem toGraphGo_error_of_mem (samples : List TestSample) :
    ∀ (minT maxT : ℚ) (minV maxV : Int) (lines : List Line),
      (∃ s ∈ samples, lines.length ≤ s.starting_channel) →
      ∃ ch, toGraphGo samples minT maxT minV maxV lines = .error ch := by
  induction samples with
  | nil =>
    intro minT maxT minV maxV lines h
    simp at h
  | cons s rest ih =>
    intro minT maxT minV maxV lines h
    by_cases hch : s.starting_channel ≥ lines.length
    · exact ⟨s.starting_channel, by rw [toGraphGo]; simp [hch]⟩
    · rcases h with ⟨t, ht, htc⟩
      rcases List.mem_cons.1 ht with rfl | ht'
      · exact absurd htc hch
      · have hrec := ih (min minT ((s.sampling_time : ℚ) / 600))
          (max maxT ((s.sampling_time : ℚ) / 600))
          (min minV (s.first_channel_result : Int))
          (max maxV (s.first_channel_result : Int))
          (lines.set s.starting_channel
            ((lines.getD s.starting_channel (Line.new (0, 0, 0))).pushPoint
              ((s.sampling_time : ℚ) / 600, (s.first_channel_result : Int))))
          ⟨t, ht', by rwa [List.length_set]⟩
        rcases hrec with ⟨ch, hchh⟩
        exact ⟨ch, by rw [toGraphGo]; simpa [hch] using hchh⟩

/-- The `toGraphE` errors exactly when `to_graph` does, wrapping the
channel in `Error::TooManyChannels`. -/
theorem toGraphE_error_iff (data : TestData) (e : Error) :
    data.toGraphE = .error e
      ↔ ∃ ch, e = .tooManyChannels ch ∧ data.to_graph = .error ch := by
  unfold TestData.toGraphE
  cases h : data.to_graph with
  | ok g => simp
  | error ch =>
    constructor
    · intro he
      cases he
      exact ⟨ch, rfl, rfl⟩
    · rintro ⟨ch', rfl, hc⟩
      cases hc
      rfl

/-- Claim C5. `TestData::to_graph` fails — with the data error
`TooManyChannels` and producing no `GraphData` — if and only if some
sample's `starting_channel` is at least the fixed slot count `7`; on
success every sample's channel is in range (an out-of-range sample is
never silently dropped). -/
theorem claim5_channel_bound (data : TestData) :
    ((∃ ch, data.toGraphE = .error (.tooManyChannels ch))
      ↔ ∃ s ∈ data.samples, 7 ≤ s.starting_channel)
    ∧ (∀ e, data.toGraphE = .error e → ∃ ch, e = .tooManyChannels ch ∧ 7 ≤ ch)
    ∧ (∀ g, data.toGraphE = .ok g → ∀ s ∈ data.samples, s.starting_channel < 7) := by
  have hlen : initialLines.length = 7 := rfl
  refine ⟨⟨?_, ?_⟩, ?_, ?_⟩
  · rintro ⟨ch, hch⟩
    rcases (toGraphE_error_iff data _).1 hch with ⟨ch', _, hgr⟩
    have := toGraphGo_error_spec data.samples _ _ _ _ _ _ hgr
    rw [hlen] at this
    rcases this with ⟨hge, s, hs, rfl⟩
    exact ⟨s, hs, hge⟩
  · rintro ⟨s, hs, hge⟩
    rcases toGraphGo_error_of_mem data.samples f32MAX f32MIN i64MAX i64MIN
        initialLines ⟨s, hs, by rwa [hlen]⟩ with ⟨ch, hch⟩
    exact ⟨ch, (toGraphE_error_iff data _).2 ⟨ch, rfl, hch⟩⟩
  · intro e he
    rcases (toGraphE_error_iff data e).1 he with ⟨ch, rfl, hgr⟩
    have := toGraphGo_error_spec data.samples _ _ _ _ _ _ hgr
    rw [hlen] at this
    exact ⟨ch, rfl, this.1⟩
  · intro g hg s hs
    by_contra hlt
    push_neg at hlt
    rcases toGraphGo_error_of_mem data.samples f32MAX f32MIN i64MAX i64MIN
        initialLines ⟨s, hs, by rwa [hlen]⟩ with ⟨ch, hch⟩
    have : data.toGraphE = .error (.tooManyChannels ch) :=
      (toGraphE_error_iff data _).2 ⟨ch, rfl, hch⟩
    rw [hg] at this
    cases this

/-- Witness for C5: a sample on channel `7` makes `to_graph` fail with
`TooManyChannels`. -/
theorem claim5_witness :
    ∃ ch, (TestData.mk [sampleCh 7] []).toGraphE = .error (.tooManyChannels ch) :=
  (claim5_channel_bound (TestData.mk [sampleCh 7] [])).1.2
    ⟨sampleCh 7, by simp, by simp [sampleCh]⟩

/-- Claim C6, counterexample. A `DeviceReady` message applied to a fresh
`IncompleteTest` makes `State::update` succeed, yet the trace of
`websockets.notify` calls is empty: the new state is not broadcast to
the registered viewers, refuting the claim that every successful
transition is broadcast. -/
theorem claim6_counterexample :
    (State.update render0 State.started (msgWith .deviceReady dataB)).1
      = .ok (State.incomplete dataB)
    ∧ (State.update render0 State.started (msgWith .deviceReady dataB)).2 = [] :=
  ⟨rfl, rfl⟩

/-- Claim C6, amended. `State::update` broadcasts exactly on successful
`NewData` replacements and successful `TestFinished` completions:
the notify trace is non-empty iff the update succeeded with one of
those two events, every broadcast state is the returned new state and
it is broadcast once; `DeviceReady`/`TestStarted` successes and
recoverable failures broadcast nothing.  When a broadcast happens,
`SessionSockets::notify` delivers the payload to every currently
registered socket. -/
theorem claim6_broadcast_on_newdata_and_completion (render : Render)
    (state : State) (message : Message) :
    ((state.update render message).2 ≠ []
      ↔ (∃ s', (state.update render message).1 = .ok s'
          ∧ (message.event = .newData ∨ message.event = .testFinished)))
    ∧ (∀ s', (state.update render message).1 = .ok s' →
        (message.event = .newData ∨ message.event = .testFinished) →
        (state.update render message).2 = [s'])
    ∧ (∀ s' ∈ (state.update render message).2,
        (state.update render message).1 = .ok s')
    ∧ (∀ (sockets : List Nat) (state' : State) (wm : WebsocketMessage),
        websocketMessageOfState render state' = .ok wm →
        sessionSocketsNotify render sockets state'
          = sockets.map fun w => (w, wm)) := by
  have hnotify : ∀ (sockets : List Nat) (state' : State) (wm : WebsocketMessage),
      websocketMessageOfState render state' = .ok wm →
      sessionSocketsNotify render sockets state'
        = sockets.map fun w => (w, wm) := by
    intro sockets state' wm hwm
    by_cases hs : sockets = [] <;>
      simp [sessionSocketsNotify, hwm, hs]
  refine ⟨?_, ?_, ?_, hnotify⟩
  all_goals
    obtain ⟨v, ev, dev, data, dstate, result⟩ := message
    cases state with
    | completedTest c => simp [State.update]
    | incompleteTest t =>
      cases ev with
      | testFinished =>
        cases result with
        | none => simp [State.update]
        | some r =>
          cases hc : IncompleteTest.complete render t r data <;>
            simp [State.update, hc]
      | newData => simp [State.update]
      | deviceReady => simp [State.update]
      | testStarted => simp [State.update]
      | alreadyTesting => simp [State.update]
      | continueTest => simp [State.update]

/-- Witness for C6's amended statement: a concrete `NewData` update is
broadcast once, and `notify` fans the payload out to both registered
sockets. -/
theorem claim6_witness :
    (State.update render0 State.started (msgWith .newData dataB)).2
      = [State.incomplete dataB]
    ∧ sessionSocketsNotify render0 [3, 4] (State.incomplete dataB)
      = [(3, WebsocketMessage.mk none none), (4, WebsocketMessage.mk none none)] := by
  have h := claim6_broadcast_on_newdata_and_completion render0 State.started
    (msgWith .newData dataB)
  exact ⟨h.2.1 (State.incomplete dataB) rfl (Or.inl rfl),
    h.2.2.2 [3, 4] (State.incomplete dataB) (WebsocketMessage.mk none none) rfl⟩

/-- Claim C7, counterexample. The websocket payload for a completed test
keeps the subgroup shorthand `"IC"` verbatim: no entry carries the
rendered label `"Control"`, refuting the renaming part of the claim
(renaming happens only in the notifier's email bodies). -/
theorem claim7_counterexample :
    websocketMessageOfState render0
        (.completedTest (CompletedTest.mk .positive
          [SubgroupResult.mk "IC" .negative] [1, 2]))
      = .ok (WebsocketMessage.mk (some [1, 2])
          (some (WsResults.mk .positive [SubgroupResult.mk "IC" .negative])))
    ∧ ∀ sg ∈ [SubgroupResult.mk "IC" DetectionResult.negative],
        sg.name ≠ "Control" := by
  exact ⟨rfl, by decide⟩

/-- Claim C7, amended. The payload for a `CompletedTest` has non-null
results carrying the overall detection result and the subgroup
entries verbatim (one per subgroup, names not renamed, `"IC"` kept as
is) plus the cached chart; for an `IncompleteTest` with zero samples
both payload fields are null. -/
theorem claim7_payload (render : Render) :
    (∀ c : CompletedTest,
      websocketMessageOfState render (.completedTest c)
        = .ok (WebsocketMessage.mk (some c.graph_png)
            (some (WsResults.mk c.overall c.subgroup_results))))
    ∧ (∀ t : IncompleteTest, t.data.samples = [] →
        websocketMessageOfState render (.incompleteTest t)
          = .ok (WebsocketMessage.mk none none)) := by
  constructor
  · intro c
    rfl
  · intro t h
    simp [websocketMessageOfState, h]

/-- Witness for C7: the payload of a fresh empty session is doubly
null. -/
theorem claim7_witness :
    websocketMessageOfState render0
        (.incompleteTest (IncompleteTest.new TestData.empty))
      = .ok (WebsocketMessage.mk none none) :=
  (claim7_payload render0).2 (IncompleteTest.new TestData.empty) rfl

/-- Concatenation of one rendered string per subgroup result. -/
def concatMap (f : SubgroupResult → String) : List SubgroupResult → String
  | [] => ""
  | r :: rs => f r ++ concatMap f rs

/-- A string-building fold is the initial string followed by the
per-element pieces. -/
theorem foldl_append_eq_concatMap (f : SubgroupResult → String)
    (l : List SubgroupResult) :
    ∀ init : String, l.foldl (fun s r => s ++ f r) init = init ++ concatMap f l := by
  induction l with
  | nil =>
    intro init
    simp [concatMap]
  | cons r rs ih =>
    intro init
    simp only [List.foldl, concatMap, ih (init ++ f r), String.append_assoc]

set_option maxRecDepth 8192 in
/-- Claim C8, counterexample. For a completed test whose overall result
is `Negative` and whose one subgroup `"T"` is `Positive`, the
plain-text body of the completion email does not contain the string
`"Positive"` anywhere — `to_markdown_list` lists subgroup names only —
while the HTML body does carry it; this refutes the claim that both
bodies carry each subgroup's detection result. -/
theorem claim8_counterexample :
    ¬ ("Positive".toList <:+:
        (notifyEmail (CompletedTest.mk .negative [SubgroupResult.mk "T" .positive] [1])
          "user@example.com").text.toList)
    ∧ ("Positive".toList <:+:
        ((notifyEmail (CompletedTest.mk .negative [SubgroupResult.mk "T" .positive] [1])
          "user@example.com").html.getD "").toList) := by
  constructor
  · decide
  · decide

/-- Claim C8, amended. The completion email contains the overall result
in both bodies; its HTML body lists, per subgroup, the name (with the
`"IC"` shorthand renamed to `"Control"`) together with that subgroup's
detection result; its plain-text body lists per subgroup the renamed
name only (no per-subgroup detection result); and the chart PNG is
attached as the single inline attachment named `graph.png`. -/
theorem claim8_email_content (c : CompletedTest) (recipient : String) :
    (notifyEmail c recipient).text
      = "Your PlusLife results are in.\n\nYour overall result is: "
        ++ c.overall.display
        ++ "\nYour subgroup results are:\n"
        ++ concatMap (fun r => " * " ++ normalise_result_name r.name ++ "\n")
            c.subgroup_results
        ++ "\n"
    ∧ (notifyEmail c recipient).html
      = some ("<h2>Your PlusLife results are in.</h2>\n\n<p>Your overall result is: "
        ++ c.overall.display
        ++ "</p>\n<p>Your subgroup results are:</p>\n"
        ++ ("<ul>\n"
            ++ concatMap (fun r => "  <li><strong>" ++ normalise_result_name r.name
                ++ "</strong>: " ++ r.result.display ++ "</li>\n")
                c.subgroup_results
            ++ "</ul>")
        ++ "\n")
    ∧ normalise_result_name "IC" = "Control"
    ∧ (∀ name, name ≠ "IC" → normalise_result_name name = name)
    ∧ (notifyEmail c recipient).recipients = [recipient]
    ∧ (notifyEmail c recipient).attachments
      = [Attachment.mk .inline "graph.png" c.graph_png "image/png"] := by
  have hmd : to_markdown_list c.subgroup_results
      = concatMap (fun r => " * " ++ normalise_result_name r.name ++ "\n")
          c.subgroup_results := by
    have h := foldl_append_eq_concatMap
      (fun r => " * " ++ normalise_result_name r.name ++ "\n")
      c.subgroup_results ""
    simpa [to_markdown_list, String.append_assoc] using h
  have hhtml : to_html_list c.subgroup_results
      = "<ul>\n"
        ++ concatMap (fun r => "  <li><strong>" ++ normalise_result_name r.name
            ++ "</strong>: " ++ r.result.display ++ "</li>\n")
            c.subgroup_results
        ++ "</ul>" := by
    have h := foldl_append_eq_concatMap
      (fun r => "  <li><strong>" ++ normalise_result_name r.name
        ++ "</strong>: " ++ r.result.display ++ "</li>\n")
      c.subgroup_results "<ul>\n"
    simp only [to_html_list, String.append_assoc] at h ⊢
    rw [h]
    exact String.append_assoc _ _ _
  refine ⟨?_, ?_, rfl, ?_, rfl, rfl⟩
  · simp [notifyEmail, hmd]
  · simp [notifyEmail, hhtml]
  · intro name h
    simp [normalise_result_name, h]

/-- Witness for C8: the renaming clause at a non-`"IC"` name. -/
theorem claim8_witness :
    normalise_result_name "T" = "T" :=
  (claim8_email_content (CompletedTest.mk .negative [] []) "user@example.com").2.2.2.1
    "T" (by decide)

/-- Claim C9. After `Sessions::create` (via `create_session`), `get` on
the returned id yields a session whose state is `IncompleteTest` with
empty data (no samples, no temperature samples); when the scheduled
expiry fires with no intervening activity the entry is removed, other
entries are untouched, and an expiry firing for an id already absent
is a no-op. -/
theorem claim9_registry_lifecycle (m : Sessions) (id : Nat)
    (timestamp : Int) (email : String) :
    (Sessions.create m id timestamp email).get id
      = some { state := State.started, created := timestamp
               email_to_notify := email, id := id }
    ∧ State.started
        = .incompleteTest (IncompleteTest.new (TestData.mk [] []))
    ∧ (expireSession (Sessions.create m id timestamp email) id).get id = none
    ∧ (∀ j, j ≠ id →
        (expireSession (Sessions.create m id timestamp email) id).get j = m.get j)
    ∧ (m.get id = none → expireSession m id = m) := by
  refine ⟨?_, rfl, ?_, ?_, ?_⟩
  · simp [Sessions.create, Sessions.insert, Sessions.get]
  · simp [expireSession, Sessions.remove, Sessions.get]
  · intro j hj
    simp [expireSession, Sessions.remove, Sessions.get, Sessions.create,
      Sessions.insert, hj]
  · intro h
    funext j
    by_cases hj : j = id
    · subst hj
      simpa [expireSession, Sessions.remove, Sessions.get] using h.symm
    · simp [expireSession, Sessions.remove, hj]

/-- Witness for C9 on a concrete empty registry. -/
theorem claim9_witness :
    (Sessions.create (fun _ => none) 5 100 "user@example.com").get 5
      = some { state := State.started, created := 100
               email_to_notify := "user@example.com", id := 5 }
    ∧ (expireSession (Sessions.create (fun _ => none) 5 100 "user@example.com") 5).get 5
      = none
    ∧ expireSession (fun _ => none) 5 = (fun _ => none) := by
  have h := claim9_registry_lifecycle (fun _ => none) 5 100 "user@example.com"
  exact ⟨h.1, h.2.2.1, h.2.2.2.2 rfl⟩

end Pluslife
